import Mathlib

/-!
Verification of the background-job subsystem of the spotlistbackend repository:
a shallow embedding of `backend/services/jobs/job_manager.py`,
`backend/services/jobs/job_executor.py`, the background-jobs section of
`backend/supabase_client.py`, and the jobs API routes in
`backend/api/routes/jobs.py`, together with theorems settling the spec's
claims about concurrency caps, retry/backoff, recovery, queue promotion,
result-size capping and error handling.

The persistent store (Supabase) is modelled as an in-memory list of job
records kept in creation order (the store's queries order by `created_at`
ascending); each store helper mirrors the corresponding Python function.
Blocking I/O, timestamps and JSON serialization lengths are threaded as
explicit parameters.
-/

/-- Substring test on character lists: `isPrefixOfB p l` is true when `p` is an
initial segment of `l`.  Used to model Python's `in` operator on strings. -/
def isPrefixOfB : List Char → List Char → Bool
  | [], _ => true
  | _ :: _, [] => false
  | a :: as, b :: bs => a == b && isPrefixOfB as bs

/-- Occurrence test on character lists: `containsB sub l` is true when `sub`
occurs contiguously inside `l`.  Models Python's `sub in s` for strings. -/
def containsB (sub : List Char) : List Char → Bool
  | [] => isPrefixOfB sub []
  | b :: bs => isPrefixOfB sub (b :: bs) || containsB sub bs

/-- Model of Python's `a or b` for strings (empty string is falsy). -/
def orStr : Option String → String → String
  | some s, d => if s = "" then d else s
  | none, d => d

/-- Model of Python's f-string rendering of an `Optional[str]` value
(`None` prints as "None"). -/
def optRepr : Option String → String
  | some s => s
  | none => "None"

/-- Job lifecycle states used in the `background_jobs` table
(`pending`, `queued`, `running`, `pending_retry`, `completed`, `failed`). -/
inductive JobStatus
  | pending
  | queued
  | running
  | pending_retry
  | completed
  | failed
deriving DecidableEq, Repr

/-- A value stored in the `result_metadata` JSON object: a string, an
optional string (Python `None` becomes JSON null), a number, or a boolean. -/
inductive MVal
  | s (v : String)
  | os (v : Option String)
  | n (v : Nat)
  | b (v : Bool)
deriving DecidableEq, Repr

/-- `result_metadata` is a JSON object, modelled as an insertion-ordered
association list, matching Python dict semantics. -/
def Metadata := List (String × MVal)
deriving DecidableEq

instance : Repr Metadata := inferInstanceAs (Repr (List (String × MVal)))

instance : Membership (String × MVal) Metadata :=
  inferInstanceAs (Membership (String × MVal) (List (String × MVal)))

/-- Python dict read `md.get(k)` on a metadata object. -/
def mdLookup : Metadata → String → Option MVal
  | [], _ => none
  | kv :: rest, k => if kv.1 = k then some kv.2 else mdLookup rest k

/-- Python dict write `md[k] = v` on a metadata object: replace the value if
the key exists, otherwise append (dicts preserve insertion order). -/
def mdSet : Metadata → String → MVal → Metadata
  | [], k, v => [(k, v)]
  | kv :: rest, k, v => if kv.1 = k then (k, v) :: rest else kv :: mdSet rest k v

/-- One flattened spot row produced by `flatten_spotlist_report`.  Only the
fields the executor reads or writes are modelled: the `Company` / `Kunde`
company columns and the `Channel` column the loop assigns. -/
structure Row where
  company : Option String
  kunde : Option String
  channel : String
deriving DecidableEq, Repr

/-- The job parameters the executor extracts (`job_executor.py` lines
118-128).  `brand_ids`, `product_ids`, `weekdays`, `dayparts`,
`epg_categories` and `profiles` are extracted by the source but never used
afterwards, so they are omitted from the model. -/
structure JobParams where
  company_name : String
  date_from : Option String
  date_to : Option String
  channel_filter : Option String
  report_type : String
deriving DecidableEq, Repr

/-- One record of the `background_jobs` table. -/
structure JobRecord where
  id : String
  session_id : String
  job_name : String
  job_type : String
  parameters : JobParams
  status : JobStatus
  progress : Nat
  progress_message : Option String
  retry_count : Nat
  result_data : Option (List Row)
  result_metadata : Option Metadata
  error_message : Option String
  created_at : Nat
  started_at : Option Nat
  completed_at : Option Nat
deriving DecidableEq, Repr

/-- A channel entry returned by `client.get_analytics_channels()`:
a `value` (id) and a `caption`. -/
structure Channel where
  value : String
  caption : String
deriving DecidableEq, Repr

/-- Find a record by id, as the store's `.eq("id", job_id)` filter does. -/
def getJob (db : List JobRecord) (id : String) : Option JobRecord :=
  db.find? (fun j => j.id == id)

/-- Whether a record with the given id exists (`len(result.data) > 0`). -/
def hasJob (db : List JobRecord) (id : String) : Bool :=
  db.any (fun j => j.id == id)

/-- Status of the record with the given id, if present. -/
def getStatus (db : List JobRecord) (id : String) : Option JobStatus :=
  (getJob db id).map (·.status)

/-- `error_message` column of the record with the given id, if present. -/
def getError (db : List JobRecord) (id : String) : Option (Option String) :=
  (getJob db id).map (·.error_message)

/-- `completed_at` column of the record with the given id, if present. -/
def getCompletedAt (db : List JobRecord) (id : String) : Option (Option Nat) :=
  (getJob db id).map (·.completed_at)

/-- `result_data` column of the record with the given id, if present. -/
def getResultData (db : List JobRecord) (id : String) : Option (Option (List Row)) :=
  (getJob db id).map (·.result_data)

/-- `result_metadata` column of the record with the given id, if present. -/
def getMetadata (db : List JobRecord) (id : String) : Option (Option Metadata) :=
  (getJob db id).map (·.result_metadata)

/-- A row-level update `UPDATE ... WHERE id = job_id`, applying `f` to every
matching record. -/
def db_update (db : List JobRecord) (job_id : String) (f : JobRecord → JobRecord) :
    List JobRecord :=
  db.map fun j => if j.id = job_id then f j else j

/-! ## Job Manager (`backend/services/jobs/job_manager.py`) -/

/-- `MAX_CONCURRENT_JOBS = 3` (`job_manager.py` line 15). -/
def MAX_CONCURRENT_JOBS : Nat := 3

/-- `running_count`: size of the in-memory registry `self._running_jobs`.
The registry is modelled as the list of registered job ids (the task handles
carry no information the claims need). -/
def running_count (reg : List String) : Nat := reg.length

/-- `can_start_job`: true iff the registry holds fewer than
`MAX_CONCURRENT_JOBS` entries. -/
def can_start_job (reg : List String) : Bool :=
  running_count reg < MAX_CONCURRENT_JOBS

/-- `is_job_running`: membership in the in-memory registry. -/
def is_job_running (reg : List String) (id : String) : Bool :=
  reg.contains id

/-- `register_job`: under the job lock, re-check `can_start_job`; if false
return the registry unchanged with `false`, else insert the id (dict key
insert: a present key is overwritten, leaving the key set unchanged). -/
def register_job (reg : List String) (id : String) : List String × Bool :=
  if can_start_job reg then (reg.insert id, true) else (reg, false)

/-- `unregister_job`: under the job lock, delete the id if present
(a no-op for an absent id). -/
def unregister_job (reg : List String) (id : String) : List String :=
  reg.erase id

/-- `cancel_job`: under the job lock, if the id is registered cancel its task
and delete it, returning whether it was found. -/
def cancel_job (reg : List String) (id : String) : List String × Bool :=
  if reg.contains id then (reg.erase id, true) else (reg, false)

/-- The job-manager operations whose interleavings claim C1 quantifies over.
`start` is `start_job`'s effect on the registry: it first checks
`can_start_job` (marking the job queued and leaving the registry unchanged
when false) and otherwise goes through `register_job`. -/
inductive MgrOp
  | register (id : String)
  | unregister (id : String)
  | cancel (id : String)
  | start (id : String)

/-- Registry effect of one job-manager operation. -/
def applyMgrOp (reg : List String) : MgrOp → List String
  | .register id => (register_job reg id).1
  | .unregister id => unregister_job reg id
  | .cancel id => (cancel_job reg id).1
  | .start id =>
      if can_start_job reg then (register_job reg id).1 else reg

/-- Run a sequence of job-manager operations from the empty registry that
`_initialize` creates. -/
def runMgrOps (ops : List MgrOp) : List String :=
  ops.foldl applyMgrOp []

lemma length_insert_le (l : List String) (a : String) :
    (l.insert a).length ≤ l.length + 1 := by
  by_cases h : a ∈ l
  · simp [List.insert, h]
  · simp [List.insert, h]

lemma register_job_length_le (reg : List String) (id : String)
    (h : reg.length ≤ MAX_CONCURRENT_JOBS) :
    (register_job reg id).1.length ≤ MAX_CONCURRENT_JOBS := by
  simp only [register_job]
  split
  · rename_i hc
    have h2 : reg.length < MAX_CONCURRENT_JOBS := by
      simpa [can_start_job, running_count] using hc
    have h1 := length_insert_le reg id
    show (reg.insert id).length ≤ MAX_CONCURRENT_JOBS
    omega
  · exact h

lemma applyMgrOp_le (reg : List String) (op : MgrOp)
    (h : reg.length ≤ MAX_CONCURRENT_JOBS) :
    (applyMgrOp reg op).length ≤ MAX_CONCURRENT_JOBS := by
  cases op with
  | register id => exact register_job_length_le reg id h
  | unregister id =>
      simp only [applyMgrOp, unregister_job]
      exact le_trans (List.length_erase_le _ _) h
  | cancel id =>
      simp only [applyMgrOp, cancel_job]
      split
      · show (reg.erase id).length ≤ MAX_CONCURRENT_JOBS
        exact le_trans (List.length_erase_le _ _) h
      · exact h
  | start id =>
      simp only [applyMgrOp]
      split
      · exact register_job_length_le reg id h
      · exact h

lemma foldl_applyMgrOp_le (ops : List MgrOp) (reg : List String)
    (h : reg.length ≤ MAX_CONCURRENT_JOBS) :
    (ops.foldl applyMgrOp reg).length ≤ MAX_CONCURRENT_JOBS := by
  induction ops generalizing reg with
  | nil => simpa using h
  | cons op rest ih =>
      simpa using ih (applyMgrOp reg op) (applyMgrOp_le reg op h)

/-- C1: at every point during any sequence of `start_job`, `register_job`,
`unregister_job` and `cancel_job` calls, the number of jobs in the Job
Manager's in-memory registry is at most `MAX_CONCURRENT_JOBS` (3):
`register_job` inserts only after re-checking `can_start_job` under the
mutex, so the count never exceeds the cap.  (Every intermediate point of a
sequence is itself the final point of the corresponding prefix, which this
statement also covers.) -/
theorem C1_concurrency_cap (ops : List MgrOp) :
    running_count (runMgrOps ops) ≤ MAX_CONCURRENT_JOBS := by
  exact foldl_applyMgrOp_le ops [] (by simp)

/-! ## Job Store operations (`backend/supabase_client.py`, Background Jobs) -/

/-- `update_job_status` (`supabase_client.py` lines 368-419): set the status
and, for each optional argument that is not `None`, the corresponding
column; update the row matching `id`; report whether a row matched. -/
def update_job_status (db : List JobRecord) (job_id : String) (status : JobStatus)
    (progress : Option Nat) (progress_message : Option String)
    (error_message : Option String) (started_at : Option Nat)
    (completed_at : Option Nat) : List JobRecord × Bool :=
  let f := fun (j : JobRecord) =>
    let j := { j with status := status }
    let j := match progress with
      | some p => { j with progress := p }
      | none => j
    let j := match progress_message with
      | some pm => { j with progress_message := some pm }
      | none => j
    let j := match error_message with
      | some em => { j with error_message := some em }
      | none => j
    let j := match started_at with
      | some sa => { j with started_at := some sa }
      | none => j
    let j := match completed_at with
      | some ca => { j with completed_at := some ca }
      | none => j
    j
  (db_update db job_id f, hasJob db job_id)

/-- The field updates `complete_job` applies to the matched row. -/
def complete_fields (now : Nat) (store_data : Option (List Row)) (md : Metadata)
    (j : JobRecord) : JobRecord :=
  { j with status := .completed, progress := 100,
           progress_message := some "Complete",
           result_data := store_data, result_metadata := some md,
           completed_at := some now }

/-- `complete_job` (`supabase_client.py` lines 422-479).  `dumpsLen` stands
for `len(json.dumps(result_data))`, the byte length of the serialized
result (the JSON serializer is external library code); an empty result
serializes as `"[]"` (2 bytes).  The source compares
`data_size_mb = len / (1024 * 1024)` against `1`; division of an integer
below 2^53 by the power of two 2^20 is exact in binary floating point, so
the test is exactly `len > 1048576`.  For an oversized result the data is
dropped and the metadata gains `data_too_large = true` and a
`data_size_mb` entry recording the measured size (the source stores
`round(len / 2^20, 2)` megabytes; the model records the measured byte
count `len` under the same key). -/
def complete_job (dumpsLen : List Row → Nat) (now : Nat) (db : List JobRecord)
    (job_id : String) (result_data : List Row) (result_metadata : Metadata) :
    List JobRecord × Bool :=
  let result_json_len := if result_data.isEmpty then 2 else dumpsLen result_data
  let store_data : Option (List Row) :=
    if 1048576 < result_json_len then none else some result_data
  let result_metadata :=
    if 1048576 < result_json_len then
      mdSet (mdSet result_metadata "data_too_large" (.b true))
        "data_size_mb" (.n result_json_len)
    else result_metadata
  (db_update db job_id (complete_fields now store_data result_metadata),
   hasJob db job_id)

/-- `get_job_by_id` (`supabase_client.py` lines 340-365): select the row with
the given id, additionally filtered by `session_id` when one is supplied
(`.single()` yields `None` when no row matches). -/
def get_job_by_id (db : List JobRecord) (job_id : String)
    (session_id : Option String) : Option JobRecord :=
  match session_id with
  | some sid => db.find? (fun j => j.id == job_id && j.session_id == sid)
  | none => db.find? (fun j => j.id == job_id)

/-- `get_pending_jobs` (`supabase_client.py` lines 511-537): rows with status
in `{pending, queued}`, ordered by `created_at` ascending (the model keeps
the table in creation order, so filtering preserves FIFO), limited. -/
def get_pending_jobs (db : List JobRecord) (limit : Nat) : List JobRecord :=
  (db.filter (fun j => j.status == .pending || j.status == .queued)).take limit

/-- Modelled from the spec: `get_stale_running_jobs` is imported from
`supabase_client` by the Job Manager and the health route, but its
definition is absent from the repository sources.  Per spec §4.3/§6 it
returns the records with `status = running` (used only by the Recovery
Coordinator). -/
def get_stale_running_jobs (db : List JobRecord) : List JobRecord :=
  db.filter (fun j => j.status == .running)

/-- Modelled from the spec: `mark_stale_jobs_as_failed(ids, error_message)`
is imported from `supabase_client` by the Job Manager, but its definition
is absent from the repository sources.  Per spec §4.3/§6 it marks each
listed record `failed` with the given error message in a single batch
update and returns the count of records marked. -/
def mark_stale_jobs_as_failed (db : List JobRecord) (ids : List String)
    (error_message : String) : List JobRecord × Nat :=
  (db.map fun j =>
     if j.id ∈ ids then
       { j with status := .failed, error_message := some error_message }
     else j,
   (db.filter (fun j => j.id ∈ ids)).length)

/-- Modelled from the spec: `increment_job_retry` is imported from
`supabase_client` by the Job Executor, but its definition is absent from
the repository sources.  Per spec §4.2 step 4 it increments the stored
retry counter of the job. -/
def increment_job_retry (db : List JobRecord) (job_id : String) : List JobRecord :=
  db_update db job_id (fun j => { j with retry_count := j.retry_count + 1 })

/-! ### Store lemmas -/

lemma getJob_db_update (db : List JobRecord) (id : String)
    (f : JobRecord → JobRecord) (hf : ∀ j, (f j).id = j.id) :
    getJob (db_update db id f) id = (getJob db id).map f := by
  induction db with
  | nil => rfl
  | cons a t ih =>
      simp only [db_update, getJob, List.map_cons, List.find?] at *
      by_cases ha : a.id = id
      · simp [ha, hf a]
      · have hbeq : (a.id == id) = false := by simpa using ha
        simp [ha, hbeq, ih]

lemma hasJob_db_update (db : List JobRecord) (id id' : String)
    (f : JobRecord → JobRecord) (hf : ∀ j, (f j).id = j.id) :
    hasJob (db_update db id f) id' = hasJob db id' := by
  induction db with
  | nil => rfl
  | cons a t ih =>
      simp only [db_update, hasJob, List.map_cons, List.any_cons] at *
      by_cases ha : a.id = id
      · simp [ha, hf a, ih]
      · simp [ha, ih]

lemma update_job_status_fst (db : List JobRecord) (job_id : String)
    (status : JobStatus) (p : Option Nat) (pm em : Option String)
    (sa ca : Option Nat) :
    (update_job_status db job_id status p pm em sa ca).1 =
      db_update db job_id (fun j =>
        { j with
          status := status,
          progress := p.getD j.progress,
          progress_message := (pm.map some).getD j.progress_message,
          error_message := (em.map some).getD j.error_message,
          started_at := (sa.map some).getD j.started_at,
          completed_at := (ca.map some).getD j.completed_at }) := by
  simp only [update_job_status, db_update]
  apply List.map_congr_left
  intro j _
  cases p <;> cases pm <;> cases em <;> cases sa <;> cases ca <;> rfl

lemma hasJob_update_job_status (db : List JobRecord) (job_id id' : String)
    (status : JobStatus) (p : Option Nat) (pm em : Option String)
    (sa ca : Option Nat) :
    hasJob (update_job_status db job_id status p pm em sa ca).1 id' =
      hasJob db id' := by
  rw [update_job_status_fst]
  exact hasJob_db_update db job_id id' _ (fun j => rfl)

lemma getJob_update_job_status (db : List JobRecord) (job_id : String)
    (status : JobStatus) (p : Option Nat) (pm em : Option String)
    (sa ca : Option Nat) :
    getJob (update_job_status db job_id status p pm em sa ca).1 job_id =
      (getJob db job_id).map (fun j =>
        { j with
          status := status,
          progress := p.getD j.progress,
          progress_message := (pm.map some).getD j.progress_message,
          error_message := (em.map some).getD j.error_message,
          started_at := (sa.map some).getD j.started_at,
          completed_at := (ca.map some).getD j.completed_at }) := by
  rw [update_job_status_fst]
  exact getJob_db_update db job_id _ (fun j => rfl)

lemma hasJob_increment_job_retry (db : List JobRecord) (job_id id' : String) :
    hasJob (increment_job_retry db job_id) id' = hasJob db id' := by
  exact hasJob_db_update db job_id id' _ (fun j => rfl)

lemma hasJob_iff_getJob (db : List JobRecord) (id : String) :
    hasJob db id = true ↔ ∃ j, getJob db id = some j := by
  induction db with
  | nil => simp [hasJob, getJob]
  | cons a t ih =>
      simp only [hasJob, List.any_cons, getJob, List.find?_cons] at *
      by_cases h : (a.id == id) = true
      · simp [h]
      · simp only [Bool.not_eq_true] at h
        simp [h, ih]

lemma mdLookup_mdSet_self (md : Metadata) (k : String) (v : MVal) :
    mdLookup (mdSet md k v) k = some v := by
  induction md with
  | nil => simp [mdSet, mdLookup]
  | cons kv rest ih =>
      by_cases h : kv.1 = k
      · simp [mdSet, mdLookup, h]
      · simp [mdSet, mdLookup, h, ih]

lemma mdLookup_mdSet_other (md : Metadata) (k k' : String) (v : MVal)
    (h : k' ≠ k) : mdLookup (mdSet md k v) k' = mdLookup md k' := by
  induction md with
  | nil =>
      simp only [mdSet, mdLookup]
      rw [if_neg (fun he => h he.symm)]
  | cons kv rest ih =>
      by_cases hk : kv.1 = k
      · have hkk : ¬ (k = k') := fun he => h he.symm
        simp [mdSet, mdLookup, hk, hkk]
      · by_cases hk' : kv.1 = k'
        · simp [mdSet, mdLookup, hk, hk', h]
        · simp [mdSet, mdLookup, hk, hk', ih]

lemma mem_mdSet (md : Metadata) (k : String) (v : MVal)
    (kv : String × MVal) (h : kv ∈ mdSet md k v) : kv ∈ md ∨ kv = (k, v) := by
  induction md with
  | nil =>
      right
      exact List.mem_singleton.mp h
  | cons a rest ih =>
      by_cases ha : a.1 = k
      · simp only [mdSet, ha, if_true] at h
        rcases List.mem_cons.mp h with h1 | h1
        · right; exact h1
        · left; exact List.mem_cons_of_mem _ h1
      · simp only [mdSet, ha, if_false] at h
        rcases List.mem_cons.mp h with h1 | h1
        · left
          rw [h1]
          exact List.mem_cons_self a rest
        · rcases ih h1 with h2 | h2
          · left; exact List.mem_cons_of_mem _ h2
          · right; exact h2

lemma getJob_complete_job (dumpsLen : List Row → Nat) (now : Nat)
    (db : List JobRecord) (job_id : String) (rows : List Row) (md : Metadata) :
    getJob (complete_job dumpsLen now db job_id rows md).1 job_id =
      (getJob db job_id).map (complete_fields now
        (if 1048576 < (if rows.isEmpty then 2 else dumpsLen rows) then none
         else some rows)
        (if 1048576 < (if rows.isEmpty then 2 else dumpsLen rows) then
            mdSet (mdSet md "data_too_large" (.b true)) "data_size_mb"
              (.n (if rows.isEmpty then 2 else dumpsLen rows))
          else md)) := by
  simp only [complete_job]
  exact getJob_db_update db job_id _ (fun j => rfl)

/-- C5: for every completing job whose serialized result exceeds the 1 MB
threshold, `complete_job` persists the record with `status=completed`,
`result_data=null`, `result_metadata.data_too_large=true` and the measured
size recorded, rather than failing; results at or below the threshold are
stored in full. -/
theorem C5_size_capped_result (dumpsLen : List Row → Nat) (now : Nat)
    (db : List JobRecord) (job_id : String) (rows : List Row) (md : Metadata)
    (hmem : hasJob db job_id = true) (hrows : rows ≠ []) :
    (1048576 < dumpsLen rows →
      getStatus (complete_job dumpsLen now db job_id rows md).1 job_id =
          some .completed ∧
      getResultData (complete_job dumpsLen now db job_id rows md).1 job_id =
          some none ∧
      getMetadata (complete_job dumpsLen now db job_id rows md).1 job_id =
          some (some (mdSet (mdSet md "data_too_large" (.b true))
            "data_size_mb" (.n (dumpsLen rows)))) ∧
      mdLookup (mdSet (mdSet md "data_too_large" (.b true))
          "data_size_mb" (.n (dumpsLen rows))) "data_too_large" =
          some (.b true) ∧
      mdLookup (mdSet (mdSet md "data_too_large" (.b true))
          "data_size_mb" (.n (dumpsLen rows))) "data_size_mb" =
          some (.n (dumpsLen rows)) ∧
      (complete_job dumpsLen now db job_id rows md).2 = true) ∧
    (dumpsLen rows ≤ 1048576 →
      getStatus (complete_job dumpsLen now db job_id rows md).1 job_id =
          some .completed ∧
      getResultData (complete_job dumpsLen now db job_id rows md).1 job_id =
          some (some rows) ∧
      getMetadata (complete_job dumpsLen now db job_id rows md).1 job_id =
          some (some md) ∧
      (complete_job dumpsLen now db job_id rows md).2 = true) := by
  obtain ⟨j, hj⟩ := (hasJob_iff_getJob db job_id).mp hmem
  have hne : rows.isEmpty = false := by
    simpa [List.isEmpty_iff] using hrows
  have hup := getJob_complete_job dumpsLen now db job_id rows md
  rw [hj] at hup
  rw [hne] at hup
  simp only [Bool.false_eq_true, if_false] at hup
  constructor
  · intro hbig
    rw [if_pos hbig, if_pos hbig] at hup
    refine ⟨?_, ?_, ?_, ?_, ?_, ?_⟩
    · simp [getStatus, hup, complete_fields]
    · simp [getResultData, hup, complete_fields]
    · simp [getMetadata, hup, complete_fields]
    · rw [mdLookup_mdSet_other _ _ _ _ (by decide)]
      exact mdLookup_mdSet_self md "data_too_large" (.b true)
    · exact mdLookup_mdSet_self _ "data_size_mb" (.n (dumpsLen rows))
    · simp [complete_job, hmem]
  · intro hsmall
    rw [if_neg (by omega : ¬ (1048576 < dumpsLen rows)),
        if_neg (by omega : ¬ (1048576 < dumpsLen rows))] at hup
    refine ⟨?_, ?_, ?_, ?_⟩
    · simp [getStatus, hup, complete_fields]
    · simp [getResultData, hup, complete_fields]
    · simp [getMetadata, hup, complete_fields]
    · simp [complete_job, hmem]

/-- Witness for C5 at a concrete store: one job, one row, a serializer
reporting 1 MB + 1 byte. -/
theorem C5_size_capped_result_witness :
    hasJob [{ id := "j1", session_id := "s1", job_name := "n", job_type := "spotlist",
              parameters := ⟨"", none, none, none, "spotlist"⟩, status := .running,
              progress := 0, progress_message := none, retry_count := 0,
              result_data := none, result_metadata := none, error_message := none,
              created_at := 0, started_at := none, completed_at := none }] "j1" = true ∧
    ([({ company := some "acme", kunde := none, channel := "C" } : Row)] ≠ []) ∧
    (getStatus (complete_job (fun _ => 1048577) 7
        [{ id := "j1", session_id := "s1", job_name := "n", job_type := "spotlist",
           parameters := ⟨"", none, none, none, "spotlist"⟩, status := .running,
           progress := 0, progress_message := none, retry_count := 0,
           result_data := none, result_metadata := none, error_message := none,
           created_at := 0, started_at := none, completed_at := none }] "j1"
        [{ company := some "acme", kunde := none, channel := "C" }] []).1 "j1" =
      some .completed) := by
  refine ⟨by decide, by decide, ?_⟩
  exact ((C5_size_capped_result (fun _ => 1048577) 7 _ "j1" _ []
    (by decide) (by decide)).1 (by decide)).1

/-! ## Start/queue path and Recovery Coordinator
(`backend/services/jobs/job_executor.py` `start_job` / `process_queued_jobs`,
`backend/services/jobs/job_manager.py` `recover_on_startup`) -/

/-- The Job Store operations a control-flow path performs, recorded so that
"performs no store reads or writes" is a statement about the model. -/
inductive StoreOp
  | getStaleRunningJobs
  | markStaleJobsAsFailed (ids : List String)
  | getPendingJobs
  | updateJobStatus (id : String)
deriving DecidableEq, Repr

/-- Outcome of the synchronous part of `start_job`: the registry, the store,
the store writes performed, and whether the job was started (vs queued). -/
structure StartResult where
  reg : List String
  db : List JobRecord
  ops : List StoreOp
  started : Bool
deriving DecidableEq, Repr

/-- The initial progress message of `execute_job_with_retry`
(`job_executor.py` line 72). -/
def startMsg (retry_count : Nat) : String :=
  "Starting data collection" ++
    (if 0 < retry_count then " (retry " ++ toString retry_count ++ ")" else "") ++
    "..."

/-- The first store write of a spawned `execute_job_with_retry` task
(`job_executor.py` lines 66-75): `status=running`, `progress=0`, the
starting message, `started_at=now`. -/
def run_mark_running (db : List JobRecord) (id : String) (now : Nat) :
    List JobRecord :=
  (update_job_status db id .running (some 0) (some (startMsg 0)) none
    (some now) none).1

/-- `start_job` (`job_executor.py` lines 372-408), synchronous part: if the
manager has no capacity, persist `status=queued` and return false; else
register the id (re-checked under the mutex by `register_job`; in this
sequential model the re-check succeeds, but the losing branch is kept:
it cancels the task, persists `queued` and returns false). -/
def start_job_sync (reg : List String) (db : List JobRecord) (id : String) :
    StartResult :=
  if can_start_job reg = false then
    { reg := reg,
      db := (update_job_status db id .queued none none none none none).1,
      ops := [.updateJobStatus id], started := false }
  else
    let r := register_job reg id
    if r.2 = false then
      { reg := r.1,
        db := (update_job_status db id .queued none none none none none).1,
        ops := [.updateJobStatus id], started := false }
    else
      { reg := r.1, db := db, ops := [], started := true }

/-- `start_job` together with the first action of the `execute` task it
spawns (the spawned task immediately persists `status=running`; the rest of
its execution is modelled separately by the executor functions). -/
def start_and_run (reg : List String) (db : List JobRecord) (id : String)
    (now : Nat) : StartResult :=
  let s := start_job_sync reg db id
  if s.started then
    { s with db := run_mark_running s.db id now,
             ops := s.ops ++ [.updateJobStatus id] }
  else s

/-- Result of draining a list of pending jobs. -/
structure DrainResult where
  reg : List String
  db : List JobRecord
  ops : List StoreOp
  started_count : Nat
deriving DecidableEq, Repr

/-- The shared drain loop over fetched pending jobs: stop when capacity is
exhausted; start each job whose id is truthy and not already registered
(`job_manager.py` lines 190-201, `job_executor.py` lines 419-427). -/
def start_pending_jobs (now : Nat) :
    List JobRecord → List String → List JobRecord → DrainResult
  | [], reg, db => { reg := reg, db := db, ops := [], started_count := 0 }
  | job :: rest, reg, db =>
    if can_start_job reg = false then
      { reg := reg, db := db, ops := [], started_count := 0 }
    else if job.id ≠ "" ∧ is_job_running reg job.id = false then
      let s := start_and_run reg db job.id now
      let r := start_pending_jobs now rest s.reg s.db
      { reg := r.reg, db := r.db, ops := s.ops ++ r.ops,
        started_count := (if s.started then 1 else 0) + r.started_count }
    else
      start_pending_jobs now rest reg db

/-- `process_queued_jobs` (`job_executor.py` lines 411-427): if capacity is
available, fetch pending/queued jobs FIFO (limit 3) and start each until
capacity is exhausted. -/
def process_queued_jobs (now : Nat) (reg : List String) (db : List JobRecord) :
    List String × List JobRecord × List StoreOp :=
  if can_start_job reg = false then (reg, db, [])
  else
    let pending := get_pending_jobs db 3
    let r := start_pending_jobs now pending reg db
    (r.reg, r.db, StoreOp.getPendingJobs :: r.ops)

/-- The Job Manager's process-wide mutable state: the in-memory registry and
the recovery idempotence flag. -/
structure MgrState where
  running_jobs : List String
  recovered : Bool
deriving DecidableEq, Repr

/-- The statistics dictionary `recover_on_startup` returns.  The `errors`
list is omitted: the store is modelled as reliable, so the exception
branches that fill it are never taken. -/
structure RecoveryStats where
  already_recovered : Bool
  stale_jobs_found : Nat
  stale_jobs_marked_failed : Nat
  queued_jobs_started : Nat
deriving DecidableEq, Repr

/-- Result of `recover_on_startup`. -/
structure RecoverResult where
  state : MgrState
  db : List JobRecord
  stats : RecoveryStats
  ops : List StoreOp
deriving DecidableEq, Repr

/-- `recover_on_startup` (`job_manager.py` lines 127-219): return immediately
when already recovered; otherwise fetch stale running jobs, mark them failed
in one batch with the restart message, fetch pending/queued jobs (limit
`MAX_CONCURRENT_JOBS`, FIFO) and start them until capacity is exhausted,
then set the idempotence flag. -/
def recover_on_startup (now : Nat) (st : MgrState) (db : List JobRecord) :
    RecoverResult :=
  if st.recovered then
    { state := st, db := db,
      stats := { already_recovered := true, stale_jobs_found := 0,
                 stale_jobs_marked_failed := 0, queued_jobs_started := 0 },
      ops := [] }
  else
    let stale := get_stale_running_jobs db
    let mres : List JobRecord × Nat × List StoreOp :=
      if stale.isEmpty = false then
        let m := mark_stale_jobs_as_failed db (stale.map (·.id))
          "Job interrupted by server restart. Please retry."
        (m.1, m.2, [StoreOp.markStaleJobsAsFailed (stale.map (·.id))])
      else (db, 0, [])
    let pending := get_pending_jobs mres.1 MAX_CONCURRENT_JOBS
    let r := start_pending_jobs now pending st.running_jobs mres.1
    { state := { running_jobs := r.reg, recovered := true },
      db := r.db,
      stats := { already_recovered := false, stale_jobs_found := stale.length,
                 stale_jobs_marked_failed := mres.2.1,
                 queued_jobs_started := r.started_count },
      ops := StoreOp.getStaleRunningJobs ::
        (mres.2.2 ++ (StoreOp.getPendingJobs :: r.ops)) }

/-- C2: given a Job Store containing a record with `status=running` and an
empty in-memory registry (simulating a restart), `recover_on_startup` marks
that record failed with an error message containing "interrupted by server
restart", using the store's `get_stale_running_jobs` and
`mark_stale_jobs_as_failed` operations. -/
theorem C2_orphan_detection (r : JobRecord) (hr : r.status = .running) :
    (recover_on_startup 5 { running_jobs := [], recovered := false } [r]).db =
      [{ r with status := .failed,
                error_message :=
                  some "Job interrupted by server restart. Please retry." }] ∧
    containsB "interrupted by server restart".data
      "Job interrupted by server restart. Please retry.".data = true := by
  constructor
  · simp [recover_on_startup, get_stale_running_jobs, mark_stale_jobs_as_failed,
      get_pending_jobs, start_pending_jobs, hr]
  · decide

/-- Witness for C2 at a concrete running record. -/
theorem C2_orphan_detection_witness :
    (recover_on_startup 5 { running_jobs := [], recovered := false }
        [{ id := "j1", session_id := "s1", job_name := "n", job_type := "spotlist",
           parameters := ⟨"", none, none, none, "spotlist"⟩, status := .running,
           progress := 40, progress_message := none, retry_count := 0,
           result_data := none, result_metadata := none, error_message := none,
           created_at := 0, started_at := some 1, completed_at := none }]).db =
      [{ id := "j1", session_id := "s1", job_name := "n", job_type := "spotlist",
         parameters := ⟨"", none, none, none, "spotlist"⟩, status := .failed,
         progress := 40, progress_message := none, retry_count := 0,
         result_data := none, result_metadata := none,
         error_message := some "Job interrupted by server restart. Please retry.",
         created_at := 0, started_at := some 1, completed_at := none }] ∧
    containsB "interrupted by server restart".data
      "Job interrupted by server restart. Please retry.".data = true :=
  C2_orphan_detection _ rfl

/-- C6: calling `recover_on_startup` twice in the same process performs Job
Store mutations only on the first call; the second call returns
`already_recovered = true` and performs no store reads or writes
(its recorded store-operation trace is empty and the store is unchanged). -/
theorem C6_idempotent_recovery (now : Nat) (db : List JobRecord) :
    (recover_on_startup now
        (recover_on_startup now { running_jobs := [], recovered := false } db).state
        (recover_on_startup now { running_jobs := [], recovered := false } db).db).state =
      (recover_on_startup now { running_jobs := [], recovered := false } db).state ∧
    (recover_on_startup now
        (recover_on_startup now { running_jobs := [], recovered := false } db).state
        (recover_on_startup now { running_jobs := [], recovered := false } db).db).db =
      (recover_on_startup now { running_jobs := [], recovered := false } db).db ∧
    (recover_on_startup now
        (recover_on_startup now { running_jobs := [], recovered := false } db).state
        (recover_on_startup now { running_jobs := [], recovered := false } db).db).stats.already_recovered
      = true ∧
    (recover_on_startup now
        (recover_on_startup now { running_jobs := [], recovered := false } db).state
        (recover_on_startup now { running_jobs := [], recovered := false } db).db).ops
      = [] := by
  have h : (recover_on_startup now { running_jobs := [], recovered := false } db).state.recovered
      = true := by
    simp [recover_on_startup]
  refine ⟨?_, ?_, ?_, ?_⟩ <;>
    · rw [recover_on_startup]
      simp [h]

/-! ## Jobs API routes (`backend/api/routes/jobs.py`) -/

/-- `create_job` store insert (`supabase_client.py` lines 254-293): a new
row with `status=pending`, `progress=0`, appended in creation order. -/
def create_job (db : List JobRecord) (id session_id job_name job_type : String)
    (params : JobParams) (created : Nat) : List JobRecord :=
  db ++ [{ id := id, session_id := session_id, job_name := job_name,
           job_type := job_type, parameters := params, status := .pending,
           progress := 0, progress_message := none, retry_count := 0,
           result_data := none, result_metadata := none, error_message := none,
           created_at := created, started_at := none, completed_at := none }]

/-- The `POST /jobs` route (`jobs.py` lines 65-108) followed by its
background `start_job` task: insert the record, then start or queue it. -/
def submit (now : Nat) (reg : List String) (db : List JobRecord) (id : String)
    (created : Nat) : List String × List JobRecord :=
  let db1 := create_job db id "s" "job" "spotlist"
    { company_name := "", date_from := none, date_to := none,
      channel_filter := none, report_type := "spotlist" } created
  let s := start_and_run reg db1 id now
  (s.reg, s.db)

/-- The tail of a finishing `execute_job_with_retry` task: the terminal
status write of whichever path ended the attempt, then the `finally` block
(`job_executor.py` lines 309-313): `unregister_job` and
`process_queued_jobs`. -/
def finish_job (now : Nat) (reg : List String) (db : List JobRecord)
    (id : String) (terminal : JobStatus) (err : Option String) :
    List String × List JobRecord :=
  let db1 := (update_job_status db id terminal none none err none (some now)).1
  let reg1 := unregister_job reg id
  let p := process_queued_jobs now reg1 db1
  (p.1, p.2.1)

/-- The system state after submitting jobs A, B, C, D in creation order from
an idle system. -/
def c7_after_submits : List String × List JobRecord :=
  let s1 := submit 0 [] [] "A" 0
  let s2 := submit 0 s1.1 s1.2 "B" 1
  let s3 := submit 0 s2.1 s2.2 "C" 2
  submit 0 s3.1 s3.2 "D" 3

/-- C7: with `MAX_CONCURRENT_JOBS = 3` and four jobs A, B, C, D submitted in
creation order, A, B, C run immediately and D is persisted as `queued`;
when any running job's execute finishes (with either terminal status), its
`finally` block unregisters the job and invokes `process_queued_jobs`,
which starts queued/pending jobs in FIFO creation order until capacity is
exhausted, so D transitions to `running` without external intervention. -/
theorem C7_queue_promotion :
    getStatus c7_after_submits.2 "A" = some .running ∧
    getStatus c7_after_submits.2 "B" = some .running ∧
    getStatus c7_after_submits.2 "C" = some .running ∧
    getStatus c7_after_submits.2 "D" = some .queued ∧
    running_count c7_after_submits.1 = 3 ∧
    (∀ x ∈ (["A", "B", "C"] : List String),
      ∀ s ∈ ([JobStatus.completed, JobStatus.failed] : List JobStatus),
        getStatus (finish_job 9 c7_after_submits.1 c7_after_submits.2 x s none).2
            "D" = some .running ∧
        is_job_running
            (finish_job 9 c7_after_submits.1 c7_after_submits.2 x s none).1 "D"
          = true) := by
  decide

/-- Witness for C7: job A finishing with `completed` promotes D to running. -/
theorem C7_queue_promotion_witness :
    getStatus (finish_job 9 c7_after_submits.1 c7_after_submits.2 "A"
        JobStatus.completed none).2 "D" = some .running :=
  (C7_queue_promotion.2.2.2.2.2 "A" (by decide) JobStatus.completed (by decide)).1

/-- Result of a jobs API route: an HTTP error or a scheduled retry. -/
inductive ApiResult
  | httpError (status_code : Nat) (detail : String)
  | retryScheduled (id : String)
deriving DecidableEq, Repr

/-- The `POST /jobs/{job_id}/retry` route (`jobs.py` lines 228-275) together
with its background `start_job` task: 404 when the job is not found, 400
when its status is not `failed`; otherwise
`update_job_status(job_id, status="pending", progress=0,
progress_message="Retrying...", error_message=None)` — and
`update_job_status` includes a column in the update only when the argument
is not `None`, so passing `error_message=None` leaves the stored
`error_message` untouched — then restart through the ordinary start/queue
path. -/
def retry_job (now : Nat) (reg : List String) (db : List JobRecord)
    (job_id : String) (session_id : String) :
    List String × List JobRecord × ApiResult :=
  match get_job_by_id db job_id (some session_id) with
  | none => (reg, db, .httpError 404 "Job not found")
  | some job =>
    if job.status ≠ JobStatus.failed then
      (reg, db, .httpError 400 "Only failed jobs can be retried")
    else
      let db1 := (update_job_status db job_id .pending (some 0)
        (some "Retrying...") none none none).1
      let s := start_and_run reg db1 job_id now
      (s.reg, s.db, .retryScheduled job_id)

/-- A failed job record with a stored error message, the failing input for
claim C9. -/
def c9_failed_job : JobRecord :=
  { id := "j1", session_id := "s1", job_name := "n", job_type := "spotlist",
    parameters := ⟨"", none, none, none, "spotlist"⟩, status := .failed,
    progress := 30, progress_message := none, retry_count := 1,
    result_data := none, result_metadata := none,
    error_message := some "boom",
    created_at := 0, started_at := some 1, completed_at := some 2 }

/-- C9 evaluated at the failing input: a failed job whose stored
`error_message` is "boom" is reset to pending and restarted (ending
`running` once the spawned task begins), but its `error_message` is NOT
cleared — `update_job_status` drops the `error_message=None` argument, so
"boom" survives the retry, contradicting the claim that the retry endpoint
clears the stored error message. -/
theorem C9_error_message_not_cleared :
    (retry_job 9 [] [c9_failed_job] "j1" "s1").2.2 = .retryScheduled "j1" ∧
    getStatus (retry_job 9 [] [c9_failed_job] "j1" "s1").2.1 "j1" =
      some .running ∧
    getError (retry_job 9 [] [c9_failed_job] "j1" "s1").2.1 "j1" =
      some (some "boom") := by
  decide

/-! ## Job Executor retry driver (`backend/services/jobs/job_executor.py`) -/

/-- `MAX_ROWS = 50000` (`job_executor.py` line 30). -/
def MAX_ROWS : Nat := 50000

/-- `MAX_RETRIES = 3` (`job_executor.py` line 33). -/
def MAX_RETRIES : Nat := 3

/-- `RETRY_BASE_DELAY = 2` seconds (`job_executor.py` line 34). -/
def RETRY_BASE_DELAY : Nat := 2

/-- How one attempt of the job body ends, as seen by the driver's
`try`/`except` structure: `done` when the body returned (having itself
persisted a terminal status), `retryable msg` when it raised an error the
driver sends to `handle_retry` (both `RetryableError` and unexpected
exceptions take that path, lines 287-289 and 303-307). -/
inductive AttemptOutcome
  | done
  | retryable (msg : String)
deriving DecidableEq, Repr

/-- Observable execution trace of the retry driver: the store, the sequence
of backoff sleeps performed (`asyncio.sleep(delay)` is recorded rather than
timed), the number of attempts run, and the statuses the driver itself
persisted. -/
structure ExecTrace where
  db : List JobRecord
  sleeps : List Nat
  attempts : Nat
  persisted : List JobStatus
deriving Repr

/-- `handle_retry` (`job_executor.py` lines 321-363).  The recursive call
back into `execute_job_with_retry` is passed in as `execute`.  When
`current_retry < MAX_RETRIES - 1`: persist `pending_retry` with the retry
message and the error, increment the stored retry counter, sleep
`RETRY_BASE_DELAY * 2 ^ current_retry` seconds, and re-execute with
`current_retry + 1`.  Otherwise persist `failed` with
"Max retries exceeded. Last error: ..." and `completed_at = now`. -/
def handle_retry (execute : Nat → ExecTrace → ExecTrace) (job_id : String)
    (now : Nat) (current_retry : Nat) (error_message : String)
    (tr : ExecTrace) : ExecTrace :=
  if current_retry < MAX_RETRIES - 1 then
    let next_retry := current_retry + 1
    let delay := RETRY_BASE_DELAY * 2 ^ current_retry
    let db1 := (update_job_status tr.db job_id .pending_retry none
      (some ("Retrying in " ++ toString delay ++ "s... (attempt " ++
        toString (next_retry + 1) ++ "/" ++ toString MAX_RETRIES ++ ")"))
      (some error_message) none none).1
    let db2 := increment_job_retry db1 job_id
    execute next_retry
      { db := db2, sleeps := tr.sleeps ++ [delay], attempts := tr.attempts,
        persisted := tr.persisted ++ [JobStatus.pending_retry] }
  else
    { db := (update_job_status tr.db job_id .failed none none
        (some ("Max retries exceeded. Last error: " ++ error_message)) none
        (some now)).1,
      sleeps := tr.sleeps, attempts := tr.attempts,
      persisted := tr.persisted ++ [JobStatus.failed] }

/-- `execute_job_with_retry` (`job_executor.py` lines 53-313), driver level:
persist `status=running` with the starting message and `started_at`, run
the attempt body (the Work Function part, abstracted as `body`; its
concrete embedding is `execute_attempt` below), and dispatch on how it
ended.  `fuel` bounds the recursion depth; `MAX_RETRIES` fuel is enough
because `handle_retry` stops retrying at `MAX_RETRIES - 1`. -/
def execute_job_with_retry
    (body : Nat → List JobRecord → List JobRecord × AttemptOutcome)
    (job_id : String) (now : Nat) :
    Nat → Nat → ExecTrace → ExecTrace
  | 0, _, tr => tr
  | fuel + 1, retry_count, tr =>
    let db1 := (update_job_status tr.db job_id .running (some 0)
      (some (startMsg retry_count)) none (some now) none).1
    let res := body retry_count db1
    let tr1 : ExecTrace :=
      { db := res.1, sleeps := tr.sleeps, attempts := tr.attempts + 1,
        persisted := tr.persisted ++ [JobStatus.running] }
    match res.2 with
    | .done => tr1
    | .retryable msg =>
        handle_retry (execute_job_with_retry body job_id now fuel) job_id now
          retry_count msg tr1

lemma getStatus_update (db : List JobRecord) (job_id : String) (s : JobStatus)
    (p : Option Nat) (pm em : Option String) (sa ca : Option Nat)
    (h : hasJob db job_id = true) :
    getStatus (update_job_status db job_id s p pm em sa ca).1 job_id = some s := by
  obtain ⟨j, hj⟩ := (hasJob_iff_getJob db job_id).mp h
  rw [getStatus, getJob_update_job_status, hj]
  rfl

lemma getError_update_some (db : List JobRecord) (job_id : String)
    (s : JobStatus) (p : Option Nat) (pm : Option String) (e : String)
    (sa ca : Option Nat) (h : hasJob db job_id = true) :
    getError (update_job_status db job_id s p pm (some e) sa ca).1 job_id =
      some (some e) := by
  obtain ⟨j, hj⟩ := (hasJob_iff_getJob db job_id).mp h
  rw [getError, getJob_update_job_status, hj]
  rfl

lemma getCompletedAt_update_some (db : List JobRecord) (job_id : String)
    (s : JobStatus) (p : Option Nat) (pm em : Option String) (sa : Option Nat)
    (t : Nat) (h : hasJob db job_id = true) :
    getCompletedAt (update_job_status db job_id s p pm em sa (some t)).1 job_id =
      some (some t) := by
  obtain ⟨j, hj⟩ := (hasJob_iff_getJob db job_id).mp h
  rw [getCompletedAt, getJob_update_job_status, hj]
  rfl

lemma isPrefixOfB_self (l : List Char) : isPrefixOfB l l = true := by
  induction l with
  | nil => rfl
  | cons a t ih => simp [isPrefixOfB, ih]

lemma containsB_append_self (l sub : List Char) :
    containsB sub (l ++ sub) = true := by
  induction l with
  | nil =>
      cases sub with
      | nil => rfl
      | cons c cs => simp [containsB, isPrefixOfB_self]
  | cons a t ih => simp [containsB, ih]

/-- C3: for every retryable failure at attempt index `retry_count` with
`retry_count < MAX_RETRIES - 1`, the executor persists
`status=pending_retry`, sleeps `base_delay * 2 ^ retry_count` seconds
before the next attempt, and recurses with `retry_count + 1`; hence a Work
Function that fails with a retryable error exactly twice and then succeeds
incurs exactly two sleeps of 2s and 4s and ends with `status=completed`. -/
theorem C3_backoff_schedule
    (body : Nat → List JobRecord → List JobRecord × AttemptOutcome)
    (job_id : String) (now : Nat) (db0 : List JobRecord) (m0 m1 : String)
    (h0 : ∀ d, (body 0 d).2 = .retryable m0)
    (h1 : ∀ d, (body 1 d).2 = .retryable m1)
    (h2 : ∀ d, (body 2 d).2 = .done)
    (hc : ∀ d, getStatus (body 2 d).1 job_id = some .completed) :
    (execute_job_with_retry body job_id now MAX_RETRIES 0
        { db := db0, sleeps := [], attempts := 0, persisted := [] }).sleeps =
      [RETRY_BASE_DELAY * 2 ^ 0, RETRY_BASE_DELAY * 2 ^ 1] ∧
    (execute_job_with_retry body job_id now MAX_RETRIES 0
        { db := db0, sleeps := [], attempts := 0, persisted := [] }).attempts = 3 ∧
    getStatus (execute_job_with_retry body job_id now MAX_RETRIES 0
        { db := db0, sleeps := [], attempts := 0, persisted := [] }).db job_id =
      some .completed ∧
    (execute_job_with_retry body job_id now MAX_RETRIES 0
        { db := db0, sleeps := [], attempts := 0, persisted := [] }).persisted =
      [.running, .pending_retry, .running, .pending_retry, .running] := by
  rw [show MAX_RETRIES = 0 + 1 + 1 + 1 from rfl]
  simp only [execute_job_with_retry, handle_retry, h0, h1, h2, MAX_RETRIES,
    RETRY_BASE_DELAY]
  norm_num
  exact hc _

/-- A running job record used as a concrete store for the executor
witnesses. -/
def sample_job : JobRecord :=
  { id := "j1", session_id := "s1", job_name := "n", job_type := "spotlist",
    parameters := ⟨"", none, none, none, "spotlist"⟩, status := .running,
    progress := 0, progress_message := none, retry_count := 0,
    result_data := none, result_metadata := none, error_message := none,
    created_at := 0, started_at := some 1, completed_at := none }

/-- C4: a Work Function that raises a retryable error on every attempt leads
to exactly `MAX_RETRIES` (3) execution attempts, after which the job is
persisted with `status=failed`, `completed_at` set, and an `error_message`
containing the last error text. -/
theorem C4_max_retries_exhausted
    (body : Nat → List JobRecord → List JobRecord × AttemptOutcome)
    (job_id : String) (now : Nat) (db0 : List JobRecord) (m : Nat → String)
    (h : ∀ rc d, (body rc d).2 = .retryable (m rc))
    (hpres : ∀ rc d, hasJob d job_id = true → hasJob (body rc d).1 job_id = true)
    (hmem : hasJob db0 job_id = true) :
    (execute_job_with_retry body job_id now MAX_RETRIES 0
        { db := db0, sleeps := [], attempts := 0, persisted := [] }).attempts = 3 ∧
    getStatus (execute_job_with_retry body job_id now MAX_RETRIES 0
        { db := db0, sleeps := [], attempts := 0, persisted := [] }).db job_id =
      some .failed ∧
    getError (execute_job_with_retry body job_id now MAX_RETRIES 0
        { db := db0, sleeps := [], attempts := 0, persisted := [] }).db job_id =
      some (some ("Max retries exceeded. Last error: " ++ m 2)) ∧
    getCompletedAt (execute_job_with_retry body job_id now MAX_RETRIES 0
        { db := db0, sleeps := [], attempts := 0, persisted := [] }).db job_id =
      some (some now) ∧
    containsB (m 2).data ("Max retries exceeded. Last error: " ++ m 2).data =
      true := by
  rw [show MAX_RETRIES = 0 + 1 + 1 + 1 from rfl]
  simp only [execute_job_with_retry, handle_retry, h, MAX_RETRIES,
    RETRY_BASE_DELAY]
  norm_num
  refine ⟨?_, ?_, ?_, ?_⟩
  · apply getStatus_update
    repeat
      first
      | exact hmem
      | rw [hasJob_update_job_status]
      | rw [hasJob_increment_job_retry]
      | apply hpres
  · apply getError_update_some
    repeat
      first
      | exact hmem
      | rw [hasJob_update_job_status]
      | rw [hasJob_increment_job_retry]
      | apply hpres
  · apply getCompletedAt_update_some
    repeat
      first
      | exact hmem
      | rw [hasJob_update_job_status]
      | rw [hasJob_increment_job_retry]
      | apply hpres
  · exact containsB_append_self "Max retries exceeded. Last error: ".data (m 2).data

/-- Witness for C4: a body that always raises "boom" while leaving the store
untouched, over a one-job store. -/
theorem C4_max_retries_exhausted_witness :
    hasJob [sample_job] "j1" = true ∧
    (execute_job_with_retry (fun _ d => (d, .retryable "boom")) "j1" 9
        MAX_RETRIES 0
        { db := [sample_job], sleeps := [], attempts := 0, persisted := [] }).attempts
      = 3 ∧
    getStatus (execute_job_with_retry (fun _ d => (d, .retryable "boom")) "j1" 9
        MAX_RETRIES 0
        { db := [sample_job], sleeps := [], attempts := 0, persisted := [] }).db
        "j1" = some .failed :=
  ⟨by decide,
   (C4_max_retries_exhausted (fun _ d => (d, .retryable "boom")) "j1" 9
     [sample_job] (fun _ => "boom") (fun _ _ => rfl) (fun _ _ hh => hh)
     (by decide)).1,
   (C4_max_retries_exhausted (fun _ d => (d, .retryable "boom")) "j1" 9
     [sample_job] (fun _ => "boom") (fun _ _ => rfl) (fun _ _ hh => hh)
     (by decide)).2.1⟩

/-- A completed job record with id "j1", the store state the C3 witness body
leaves behind on its successful third attempt. -/
def c3_completed_job : JobRecord :=
  { id := "j1", session_id := "s1", job_name := "n", job_type := "spotlist",
    parameters := ⟨"", none, none, none, "spotlist"⟩, status := .completed,
    progress := 100, progress_message := some "Complete", retry_count := 2,
    result_data := some [], result_metadata := some [], error_message := none,
    created_at := 0, started_at := some 1, completed_at := some 9 }

/-- A body that fails with a retryable error on attempts 0 and 1 and
completes on attempt 2, persisting `c3_completed_job`. -/
def c3_body : Nat → List JobRecord → List JobRecord × AttemptOutcome :=
  fun rc d =>
    if rc == 2 then ([c3_completed_job], .done) else (d, .retryable "transient")

/-- Witness for C3: the twice-failing body sleeps 2s then 4s and ends
completed. -/
theorem C3_backoff_schedule_witness :
    (execute_job_with_retry c3_body "j1" 9 MAX_RETRIES 0
        { db := [], sleeps := [], attempts := 0, persisted := [] }).sleeps =
      [RETRY_BASE_DELAY * 2 ^ 0, RETRY_BASE_DELAY * 2 ^ 1] ∧
    getStatus (execute_job_with_retry c3_body "j1" 9 MAX_RETRIES 0
        { db := [], sleeps := [], attempts := 0, persisted := [] }).db "j1" =
      some .completed :=
  ⟨(C3_backoff_schedule c3_body "j1" 9 [] "transient" "transient"
      (fun _ => rfl) (fun _ => rfl) (fun _ => rfl) (fun _ => rfl)).1,
   (C3_backoff_schedule c3_body "j1" 9 [] "transient" "transient"
      (fun _ => rfl) (fun _ => rfl) (fun _ => rfl) (fun _ => rfl)).2.2.1⟩

/-! ## Job Executor attempt body (`job_executor.py` lines 77-285)

The body of one execution attempt: AEOS setup, the channel collection loop,
the empty-result check and result persistence.  External I/O (AEOS
availability, client construction, the channel list, each channel's
flattened spotlist report, JSON serialization length, the clock) enters
through `AttemptEnv`.  The per-channel `update_progress` calls are omitted:
they only write float-valued telemetry (`progress`, `progress_message`)
that no later read depends on. -/

/-- Result of one channel's `get_spotlist` + `flatten_spotlist_report`: the
flattened rows, a per-channel timeout, or any other exception. -/
inductive FetchResult
  | ok (rows : List Row)
  | timeout
  | err (msg : String)
deriving Repr

/-- The collection loop's mutable state (`job_executor.py` lines 154-158):
`all_rows`, `channels_with_data`, `row_limit_reached`,
`consecutive_errors`. -/
structure CollectState where
  all_rows : List Row
  channels_with_data : Nat
  row_limit_reached : Bool
  consecutive_errors : Nat
deriving DecidableEq, Repr

/-- The collection loop's initial state. -/
def initCollect : CollectState :=
  { all_rows := [], channels_with_data := 0, row_limit_reached := false,
    consecutive_errors := 0 }

/-- The inner per-row loop of one channel (`job_executor.py` lines 194-210):
stop with `row_limit_reached` when `len(all_rows) >= MAX_ROWS`; otherwise
set the row's `Channel`, apply the company filter (`target in
(r.get("Company") or r.get("Kunde") or "").lower()`) and append.  Returns
the updated state and `channel_matches`. -/
def collect_rows_in_channel (target caption : String) :
    List Row → CollectState → Nat → CollectState × Nat
  | [], st, channel_matches => (st, channel_matches)
  | r :: rest, st, channel_matches =>
    if MAX_ROWS ≤ st.all_rows.length then
      ({ st with row_limit_reached := true }, channel_matches)
    else
      let r := { r with channel := caption }
      if target ≠ "" then
        let company := (orStr r.company (orStr r.kunde "")).toLower
        if containsB target.data company.data then
          collect_rows_in_channel target caption rest
            { st with all_rows := st.all_rows ++ [r] } (channel_matches + 1)
        else
          collect_rows_in_channel target caption rest st channel_matches
      else
        collect_rows_in_channel target caption rest
          { st with all_rows := st.all_rows ++ [r] } (channel_matches + 1)

/-- The outer loop over channels (`job_executor.py` lines 160-244): fetch
each channel's report (resetting `consecutive_errors` on success, skipping
empty reports), collect its rows, count channels with matches, break when
the row limit is reached, and escalate five consecutive per-channel
failures to a `RetryableError` (`Except.error`). -/
def process_channels (target : String) (fetch : Channel → FetchResult) :
    List Channel → CollectState → Except String CollectState
  | [], st => .ok st
  | ch :: rest, st =>
    match fetch ch with
    | .ok report =>
      let st := { st with consecutive_errors := 0 }
      if report.isEmpty then process_channels target fetch rest st
      else
        let cm := collect_rows_in_channel target ch.caption report st 0
        let st := cm.1
        let st := if 0 < cm.2 then
            { st with channels_with_data := st.channels_with_data + 1 }
          else st
        if st.row_limit_reached then .ok st
        else process_channels target fetch rest st
    | .timeout =>
      let st := { st with consecutive_errors := st.consecutive_errors + 1 }
      if 5 ≤ st.consecutive_errors then
        .error ("Too many consecutive channel errors (" ++
          toString st.consecutive_errors ++ ")")
      else process_channels target fetch rest st
    | .err _ =>
      let st := { st with consecutive_errors := st.consecutive_errors + 1 }
      if 5 ≤ st.consecutive_errors then
        .error ("Too many consecutive channel errors (" ++
          toString st.consecutive_errors ++ ")")
      else process_channels target fetch rest st

/-- The channel filter (`job_executor.py` lines 139-148): when a non-blank
`channel_filter` is given, keep channels whose caption contains one of the
comma-separated, trimmed, lowercased terms; fall back to all channels if
nothing matches. -/
def filter_channels (channel_filter : Option String)
    (all_channels_raw : List Channel) : List Channel :=
  match channel_filter with
  | some cf =>
    if cf ≠ "" ∧ cf.trim ≠ "" then
      let filter_terms :=
        ((cf.splitOn ",").filter (fun t => t.trim ≠ "")).map
          (fun t => t.trim.toLower)
      let all_channels := all_channels_raw.filter (fun ch =>
        filter_terms.any (fun t => containsB t.data ch.caption.toLower.data))
      if all_channels.isEmpty then all_channels_raw else all_channels
    else all_channels_raw
  | none => all_channels_raw

/-- `target = company_name.lower() if company_name else ""`
(`job_executor.py` line 157). -/
def job_target (p : JobParams) : String :=
  if p.company_name ≠ "" then p.company_name.toLower else ""

/-- The `result_metadata` dict built on success (`job_executor.py` lines
262-272).  Note it carries no row-limit flag: `row_limit_reached` is
computed by the loop but never stored. -/
def result_metadata_base (p : JobParams)
    (total_spots channels_with_data retry_count : Nat) : Metadata :=
  [("company_name", .s p.company_name),
   ("date_from", .os p.date_from),
   ("date_to", .os p.date_to),
   ("channel_filter", .os p.channel_filter),
   ("report_type", .s p.report_type),
   ("total_spots", .n total_spots),
   ("channels_with_data", .n channels_with_data),
   ("retry_count", .n retry_count)]

/-- The external inputs of one attempt. -/
structure AttemptEnv where
  aeos_available : Bool
  client_err : Option String
  channels_result : Except String (List Channel)
  fetch : Channel → FetchResult
  dumpsLen : List Row → Nat
  now : Nat

/-- One attempt body (`job_executor.py` lines 77-285, after the driver's
initial `running` write): import failure persists a terminal failure
without retry; client/channel-fetch failures raise retryable errors; then
the collection loop, the empty-result failure, and `complete_job` (a store
write that reports failure raises a retryable error). -/
def execute_attempt (env : AttemptEnv) (p : JobParams) (retry_count : Nat)
    (db : List JobRecord) (job_id : String) :
    List JobRecord × AttemptOutcome :=
  if env.aeos_available = false then
    ((update_job_status db job_id .failed none none
        (some "AEOS integration not available") none (some env.now)).1, .done)
  else
    match env.client_err with
    | some e => (db, .retryable ("Error initializing AEOS: " ++ e))
    | none =>
      match env.channels_result with
      | .error e => (db, .retryable ("Failed to fetch channels: " ++ e))
      | .ok all_channels_raw =>
        let all_channels := filter_channels p.channel_filter all_channels_raw
        let target := job_target p
        match process_channels target env.fetch all_channels initCollect with
        | .error msg => (db, .retryable msg)
        | .ok st =>
          if st.all_rows.isEmpty then
            ((update_job_status db job_id .failed none none
                (some ("No data found for " ++ optRepr p.date_from ++ " to " ++
                  optRepr p.date_to)) none (some env.now)).1, .done)
          else
            let result_metadata := result_metadata_base p st.all_rows.length
              st.channels_with_data retry_count
            let c := complete_job env.dumpsLen env.now db job_id st.all_rows
              result_metadata
            if c.2 then (c.1, .done)
            else (c.1, .retryable "Failed to save results to database")

/-- C10: if an execution attempt finishes its channel iteration normally but
has collected zero rows, the executor persists the job as `status=failed`
with an `error_message` of the form "No data found for <date_from> to
<date_to>" and `completed_at` set, instead of completing it; completion
with result persistence happens only when at least one row was
collected. -/
theorem C10_empty_result_failure
    (env : AttemptEnv) (p : JobParams) (retry_count : Nat)
    (db : List JobRecord) (job_id : String) (chans : List Channel)
    (st : CollectState)
    (ha : env.aeos_available = true)
    (hcl : env.client_err = none)
    (hch : env.channels_result = .ok chans)
    (hproc : process_channels (job_target p) env.fetch
        (filter_channels p.channel_filter chans) initCollect = .ok st)
    (hmem : hasJob db job_id = true) :
    (st.all_rows = [] →
      (execute_attempt env p retry_count db job_id).2 = .done ∧
      getStatus (execute_attempt env p retry_count db job_id).1 job_id =
        some .failed ∧
      getError (execute_attempt env p retry_count db job_id).1 job_id =
        some (some ("No data found for " ++ optRepr p.date_from ++ " to " ++
          optRepr p.date_to)) ∧
      getCompletedAt (execute_attempt env p retry_count db job_id).1 job_id =
        some (some env.now)) ∧
    (getStatus (execute_attempt env p retry_count db job_id).1 job_id =
        some .completed →
      st.all_rows ≠ []) := by
  constructor
  · intro hempty
    have hie : st.all_rows.isEmpty = true := by simp [List.isEmpty_iff, hempty]
    simp only [execute_attempt, ha, hcl, hch, hproc, hie, Bool.true_eq_false,
      if_false, eq_self_iff_true, if_true]
    refine ⟨trivial, ?_, ?_, ?_⟩
    · exact getStatus_update _ _ _ _ _ _ _ _ hmem
    · exact getError_update_some _ _ _ _ _ _ _ _ hmem
    · exact getCompletedAt_update_some _ _ _ _ _ _ _ _ hmem
  · intro hcomp hempty
    have hie : st.all_rows.isEmpty = true := by simp [List.isEmpty_iff, hempty]
    have hfail : getStatus (execute_attempt env p retry_count db job_id).1 job_id =
        some .failed := by
      simp only [execute_attempt, ha, hcl, hch, hproc, hie, Bool.true_eq_false,
      if_false, eq_self_iff_true, if_true]
      exact getStatus_update _ _ _ _ _ _ _ _ hmem
    rw [hfail] at hcomp
    simp at hcomp

/-- Concrete environment for the C10 witness: one channel whose report
flattens to no rows. -/
def c10_env : AttemptEnv :=
  { aeos_available := true, client_err := none,
    channels_result := .ok [{ value := "1", caption := "TV1" }],
    fetch := fun _ => .ok [], dumpsLen := fun _ => 10, now := 9 }

/-- Concrete parameters for the C10 witness. -/
def c10_params : JobParams :=
  { company_name := "", date_from := some "2024-01-01",
    date_to := some "2024-01-31", channel_filter := none,
    report_type := "spotlist" }

/-- Witness for C10: the zero-row attempt persists the dated failure
message. -/
theorem C10_empty_result_failure_witness :
    getStatus (execute_attempt c10_env c10_params 0 [sample_job] "j1").1 "j1" =
      some .failed ∧
    getError (execute_attempt c10_env c10_params 0 [sample_job] "j1").1 "j1" =
      some (some "No data found for 2024-01-01 to 2024-01-31") :=
  ⟨((C10_empty_result_failure c10_env c10_params 0 [sample_job] "j1"
      [{ value := "1", caption := "TV1" }] initCollect rfl rfl rfl rfl
      (by decide)).1 rfl).2.1,
   ((C10_empty_result_failure c10_env c10_params 0 [sample_job] "j1"
      [{ value := "1", caption := "TV1" }] initCollect rfl rfl rfl rfl
      (by decide)).1 rfl).2.2.1⟩

lemma collect_limit_length (target caption : String) :
    ∀ (rows : List Row) (st : CollectState) (cm : Nat),
      (st.row_limit_reached = true → MAX_ROWS ≤ st.all_rows.length) →
      (collect_rows_in_channel target caption rows st cm).1.row_limit_reached = true →
      MAX_ROWS ≤ (collect_rows_in_channel target caption rows st cm).1.all_rows.length := by
  intro rows
  induction rows with
  | nil => intro st cm hpre hlim; exact hpre hlim
  | cons r rest ih =>
      intro st cm hpre
      simp only [collect_rows_in_channel]
      split
      · rename_i hge
        intro _
        exact hge
      · rename_i hlt
        have hpre' : ∀ x : Row,
            ({ st with all_rows := st.all_rows ++ [x] } : CollectState).row_limit_reached = true →
            MAX_ROWS ≤
              ({ st with all_rows := st.all_rows ++ [x] } : CollectState).all_rows.length := by
          intro x hl
          have h1 := hpre hl
          show MAX_ROWS ≤ (st.all_rows ++ [x]).length
          rw [List.length_append]
          omega
        split
        · split
          · exact ih _ _ (hpre' _)
          · exact ih _ _ hpre
        · exact ih _ _ (hpre' _)

lemma process_limit_length (target : String) (fetch : Channel → FetchResult) :
    ∀ (chans : List Channel) (st : CollectState),
      (st.row_limit_reached = true → MAX_ROWS ≤ st.all_rows.length) →
      ∀ st', process_channels target fetch chans st = .ok st' →
        st'.row_limit_reached = true → MAX_ROWS ≤ st'.all_rows.length := by
  intro chans
  induction chans with
  | nil =>
      intro st hpre st' hok
      simp only [process_channels] at hok
      cases hok
      exact hpre
  | cons ch rest ih =>
      intro st hpre st' hok
      simp only [process_channels] at hok
      have hpre0 : (({ st with consecutive_errors := 0 } : CollectState).row_limit_reached = true →
          MAX_ROWS ≤ ({ st with consecutive_errors := 0 } : CollectState).all_rows.length) :=
        fun hl => hpre hl
      cases hfetch : fetch ch with
      | ok report =>
          rw [hfetch] at hok
          simp only at hok
          by_cases hrep : report.isEmpty
          · rw [if_pos hrep] at hok
            exact ih _ hpre0 st' hok
          · rw [if_neg hrep] at hok
            rcases hcme : collect_rows_in_channel target ch.caption report
                { st with consecutive_errors := 0 } 0 with ⟨u, m⟩
            rw [hcme] at hok
            have hu : u.row_limit_reached = true → MAX_ROWS ≤ u.all_rows.length := by
              intro hl
              have h2 := collect_limit_length target ch.caption report
                { st with consecutive_errors := 0 } 0 hpre0
              rw [hcme] at h2
              exact h2 hl
            by_cases hm : 0 < m
            · rw [if_pos hm] at hok
              have hu2 : ({ u with channels_with_data := u.channels_with_data + 1 } :
                    CollectState).row_limit_reached = true →
                  MAX_ROWS ≤ ({ u with channels_with_data := u.channels_with_data + 1 } :
                    CollectState).all_rows.length :=
                fun hl => hu hl
              split at hok
              · cases hok
                exact hu2
              · exact ih _ hu2 st' hok
            · rw [if_neg hm] at hok
              split at hok
              · cases hok
                exact hu
              · exact ih _ hu st' hok
      | timeout =>
          rw [hfetch] at hok
          simp only at hok
          split at hok
          · cases hok
          · exact ih { st with consecutive_errors := st.consecutive_errors + 1 }
              (fun hl => hpre hl) st' hok
      | err msg =>
          rw [hfetch] at hok
          simp only at hok
          split at hok
          · cases hok
          · exact ih { st with consecutive_errors := st.consecutive_errors + 1 }
              (fun hl => hpre hl) st' hok

lemma getStatus_complete_job (dumpsLen : List Row → Nat) (now : Nat)
    (db : List JobRecord) (job_id : String) (rows : List Row) (md : Metadata)
    (hmem : hasJob db job_id = true) :
    getStatus (complete_job dumpsLen now db job_id rows md).1 job_id =
      some .completed := by
  obtain ⟨j, hj⟩ := (hasJob_iff_getJob db job_id).mp hmem
  rw [getStatus, getJob_complete_job, hj]
  rfl

lemma getMetadata_complete_job (dumpsLen : List Row → Nat) (now : Nat)
    (db : List JobRecord) (job_id : String) (rows : List Row) (md : Metadata)
    (hmem : hasJob db job_id = true) :
    getMetadata (complete_job dumpsLen now db job_id rows md).1 job_id =
      some (some (if 1048576 < (if rows.isEmpty then 2 else dumpsLen rows) then
          mdSet (mdSet md "data_too_large" (.b true)) "data_size_mb"
            (.n (if rows.isEmpty then 2 else dumpsLen rows))
        else md)) := by
  obtain ⟨j, hj⟩ := (hasJob_iff_getJob db job_id).mp hmem
  rw [getMetadata, getJob_complete_job, hj]
  rfl

lemma result_metadata_base_lookup_none (p : JobParams) (ts cwd rc : Nat) :
    mdLookup (result_metadata_base p ts cwd rc) "row_limit_reached" = none := rfl

lemma result_metadata_base_no_true (p : JobParams) (ts cwd rc : Nat) :
    ∀ kv ∈ result_metadata_base p ts cwd rc, kv.2 ≠ MVal.b true := by
  intro kv hkv
  have hkv' : kv ∈ ([("company_name", MVal.s p.company_name),
      ("date_from", MVal.os p.date_from),
      ("date_to", MVal.os p.date_to),
      ("channel_filter", MVal.os p.channel_filter),
      ("report_type", MVal.s p.report_type),
      ("total_spots", MVal.n ts),
      ("channels_with_data", MVal.n cwd),
      ("retry_count", MVal.n rc)] : List (String × MVal)) := hkv
  simp only [List.mem_cons, List.not_mem_nil, or_false] at hkv'
  rcases hkv' with h|h|h|h|h|h|h|h <;> simp [h]

/-- C8 (amended): for every run in which the collected row count reaches
`MAX_ROWS`, the executor stops collecting early and the job still completes
successfully (`status=completed`), but the persisted `result_metadata`
carries NO flag recording that the row limit was hit: it has no
`row_limit_reached` key, and its only possible true boolean entry is the
unrelated `data_too_large` size flag.  (The loop's `row_limit_reached`
variable is surfaced only through a progress message, never stored.) -/
theorem C8_row_limit_no_metadata_flag
    (env : AttemptEnv) (p : JobParams) (retry_count : Nat)
    (db : List JobRecord) (job_id : String) (chans : List Channel)
    (st : CollectState)
    (ha : env.aeos_available = true)
    (hcl : env.client_err = none)
    (hch : env.channels_result = .ok chans)
    (hproc : process_channels (job_target p) env.fetch
        (filter_channels p.channel_filter chans) initCollect = .ok st)
    (hlimit : st.row_limit_reached = true)
    (hmem : hasJob db job_id = true) :
    (execute_attempt env p retry_count db job_id).2 = .done ∧
    getStatus (execute_attempt env p retry_count db job_id).1 job_id =
      some .completed ∧
    ∃ md', getMetadata (execute_attempt env p retry_count db job_id).1 job_id =
        some (some md') ∧
      mdLookup md' "row_limit_reached" = none ∧
      ∀ kv ∈ md', kv.2 = MVal.b true → kv.1 = "data_too_large" := by
  have hpre0 : initCollect.row_limit_reached = true →
      MAX_ROWS ≤ initCollect.all_rows.length := by
    intro h
    simp [initCollect] at h
  have hlen : MAX_ROWS ≤ st.all_rows.length :=
    process_limit_length (job_target p) env.fetch
      (filter_channels p.channel_filter chans) initCollect hpre0 st hproc hlimit
  have hne : st.all_rows ≠ [] := by
    intro he
    rw [he] at hlen
    simp [MAX_ROWS] at hlen
  have hie : st.all_rows.isEmpty = false := by
    simpa [List.isEmpty_iff] using hne
  have hc2 : (complete_job env.dumpsLen env.now db job_id st.all_rows
      (result_metadata_base p st.all_rows.length st.channels_with_data
        retry_count)).2 = true := by
    simp [complete_job, hmem]
  simp only [execute_attempt, ha, hcl, hch, hproc, hie, hc2,
    Bool.true_eq_false, Bool.false_eq_true, if_false, eq_self_iff_true,
    if_true]
  refine ⟨trivial, getStatus_complete_job _ _ _ _ _ _ hmem, ?_⟩
  refine ⟨_, getMetadata_complete_job _ _ _ _ _ _ hmem, ?_, ?_⟩
  · rw [hie]
    simp only [Bool.false_eq_true, if_false]
    by_cases hbig : 1048576 < env.dumpsLen st.all_rows
    · rw [if_pos hbig]
      rw [mdLookup_mdSet_other _ _ _ _ (by decide),
        mdLookup_mdSet_other _ _ _ _ (by decide)]
      exact result_metadata_base_lookup_none _ _ _ _
    · rw [if_neg hbig]
      exact result_metadata_base_lookup_none _ _ _ _
  · rw [hie]
    simp only [Bool.false_eq_true, if_false]
    by_cases hbig : 1048576 < env.dumpsLen st.all_rows
    · rw [if_pos hbig]
      intro kv hkv hb
      rcases mem_mdSet _ _ _ _ hkv with h1 | h1
      · rcases mem_mdSet _ _ _ _ h1 with h2 | h2
        · exact absurd hb (result_metadata_base_no_true _ _ _ _ kv h2)
        · rw [h2]
      · rw [h1] at hb
        simp at hb
    · rw [if_neg hbig]
      intro kv hkv hb
      exact absurd hb (result_metadata_base_no_true _ _ _ _ kv hkv)

lemma collect_replicate (caption : String) (r : Row) :
    ∀ (k : Nat) (st : CollectState) (cm : Nat),
      st.all_rows.length + k = MAX_ROWS + 1 → 1 ≤ k →
      collect_rows_in_channel "" caption (List.replicate k r) st cm =
        ({ st with
            all_rows := st.all_rows ++
              List.replicate (k - 1) { r with channel := caption },
            row_limit_reached := true }, cm + (k - 1)) := by
  intro k
  induction k with
  | zero =>
      intro st cm _ h1
      omega
  | succ n ih =>
      intro st cm hsum _
      rw [List.replicate_succ]
      simp only [collect_rows_in_channel]
      by_cases hge : MAX_ROWS ≤ st.all_rows.length
      · rw [if_pos hge]
        have hn : n = 0 := by omega
        subst hn
        simp
      · rw [if_neg hge]
        rw [if_neg (by decide : ¬(("" : String) ≠ ""))]
        have hn1 : 1 ≤ n := by omega
        rw [ih { st with all_rows := st.all_rows ++ [{ r with channel := caption }] }
          (cm + 1) (by simp [List.length_append]; omega) hn1]
        simp only [Prod.mk.injEq, CollectState.mk.injEq, List.append_assoc,
          List.singleton_append, Nat.add_sub_cancel, true_and, and_true,
          eq_self_iff_true]
        constructor
        · rw [← List.replicate_succ, show (n - 1) + 1 = n from by omega]
        · omega

/-- A report row for the C8 counterexample run. -/
def c8_row : Row := { company := none, kunde := none, channel := "" }

/-- The single channel of the C8 counterexample run. -/
def c8_chan : Channel := { value := "1", caption := "TV1" }

/-- Environment of the C8 counterexample run: one channel whose report
flattens to `MAX_ROWS + 1` rows, so the row limit is hit with one row left
over; results serialize small. -/
def c8_env : AttemptEnv :=
  { aeos_available := true, client_err := none,
    channels_result := .ok [c8_chan],
    fetch := fun _ => .ok (List.replicate (MAX_ROWS + 1) c8_row),
    dumpsLen := fun _ => 100, now := 9 }

/-- Parameters of the C8 counterexample run (no company filter). -/
def c8_params : JobParams :=
  { company_name := "", date_from := some "2024-01-01",
    date_to := some "2024-01-31", channel_filter := none,
    report_type := "spotlist" }

/-- The collection state the C8 counterexample run ends in: exactly
`MAX_ROWS` rows collected and `row_limit_reached` set. -/
def c8_collect_result : CollectState :=
  { all_rows := List.replicate MAX_ROWS { c8_row with channel := "TV1" },
    channels_with_data := 1, row_limit_reached := true,
    consecutive_errors := 0 }

lemma process_one_channel (target : String) (fetch : Channel → FetchResult)
    (ch : Channel) (rows : List Row) (st u : CollectState) (m : Nat)
    (hf : fetch ch = .ok rows) (hne : rows.isEmpty = false)
    (hc : collect_rows_in_channel target ch.caption rows
      { st with consecutive_errors := 0 } 0 = (u, m))
    (hm : 0 < m) (hl : u.row_limit_reached = true) :
    process_channels target fetch [ch] st =
      .ok { u with channels_with_data := u.channels_with_data + 1 } := by
  simp only [process_channels, hf, hne, Bool.false_eq_true, if_false, hc]
  rw [if_pos hm]
  rw [if_pos (show ({ u with channels_with_data := u.channels_with_data + 1 } :
    CollectState).row_limit_reached = true from hl)]

lemma c8_process_eq :
    process_channels (job_target c8_params) c8_env.fetch
      (filter_channels c8_params.channel_filter [c8_chan]) initCollect =
    .ok c8_collect_result := by
  have hie : (List.replicate (MAX_ROWS + 1) c8_row).isEmpty = false := by
    rw [List.replicate_succ]
    rfl
  have hcoll := collect_replicate "TV1" c8_row (MAX_ROWS + 1)
    { initCollect with consecutive_errors := 0 } 0
    (by simp [initCollect]) (by omega)
  have hc : collect_rows_in_channel "" "TV1"
      (List.replicate (MAX_ROWS + 1) c8_row)
      { initCollect with consecutive_errors := 0 } 0 =
      (({ all_rows := List.replicate MAX_ROWS { c8_row with channel := "TV1" },
          channels_with_data := 0, row_limit_reached := true,
          consecutive_errors := 0 } : CollectState), MAX_ROWS) := by
    rw [hcoll]
    rfl
  exact process_one_channel "" c8_env.fetch c8_chan
    (List.replicate (MAX_ROWS + 1) c8_row) initCollect
    { all_rows := List.replicate MAX_ROWS { c8_row with channel := "TV1" },
      channels_with_data := 0, row_limit_reached := true,
      consecutive_errors := 0 }
    MAX_ROWS rfl hie hc (by decide) rfl

lemma complete_job_snd (dumpsLen : List Row → Nat) (now : Nat)
    (db : List JobRecord) (job_id : String) (rows : List Row) (md : Metadata) :
    (complete_job dumpsLen now db job_id rows md).2 = hasJob db job_id := rfl

lemma execute_attempt_success (env : AttemptEnv) (p : JobParams)
    (retry_count : Nat) (db : List JobRecord) (job_id : String)
    (chans : List Channel) (st : CollectState)
    (ha : env.aeos_available = true)
    (hcl : env.client_err = none)
    (hch : env.channels_result = .ok chans)
    (hproc : process_channels (job_target p) env.fetch
        (filter_channels p.channel_filter chans) initCollect = .ok st)
    (hie : st.all_rows.isEmpty = false)
    (hmem : hasJob db job_id = true) :
    execute_attempt env p retry_count db job_id =
      ((complete_job env.dumpsLen env.now db job_id st.all_rows
        (result_metadata_base p st.all_rows.length st.channels_with_data
          retry_count)).1, .done) := by
  simp only [execute_attempt, ha, hcl, hch, hproc, hie, complete_job_snd,
    hmem, Bool.true_eq_false, Bool.false_eq_true, if_false, eq_self_iff_true,
    if_true]

/-- C8 counterexample: a run that reaches the row limit (one channel
reporting `MAX_ROWS + 1` rows) completes with `status=completed`, and the
persisted `result_metadata` is exactly the eight fixed keys — it holds no
`row_limit_reached` key and no true boolean at all, so no flag notes that
the row limit was hit, contrary to the claim. -/
theorem C8_counterexample :
    c8_collect_result.row_limit_reached = true ∧
    process_channels (job_target c8_params) c8_env.fetch
        (filter_channels c8_params.channel_filter [c8_chan]) initCollect =
      .ok c8_collect_result ∧
    (execute_attempt c8_env c8_params 0 [sample_job] "j1").2 = .done ∧
    getStatus (execute_attempt c8_env c8_params 0 [sample_job] "j1").1 "j1" =
      some .completed ∧
    getMetadata (execute_attempt c8_env c8_params 0 [sample_job] "j1").1 "j1" =
      some (some (result_metadata_base c8_params MAX_ROWS 1 0)) ∧
    mdLookup (result_metadata_base c8_params MAX_ROWS 1 0)
      "row_limit_reached" = none ∧
    (∀ kv ∈ result_metadata_base c8_params MAX_ROWS 1 0,
      kv.2 ≠ MVal.b true) := by
  have ha : c8_env.aeos_available = true := rfl
  have hcl : c8_env.client_err = none := rfl
  have hch : c8_env.channels_result = .ok [c8_chan] := rfl
  have hmem : hasJob [sample_job] "j1" = true := by decide
  have hie : c8_collect_result.all_rows.isEmpty = false := by
    show (List.replicate MAX_ROWS { c8_row with channel := "TV1" }).isEmpty =
      false
    rw [show MAX_ROWS = 49999 + 1 from rfl, List.replicate_succ]
    rfl
  have hc2 : (complete_job c8_env.dumpsLen c8_env.now [sample_job] "j1"
      c8_collect_result.all_rows (result_metadata_base c8_params
        c8_collect_result.all_rows.length c8_collect_result.channels_with_data
        0)).2 = true := hmem
  have hexec := execute_attempt_success c8_env c8_params 0 [sample_job] "j1"
    [c8_chan] c8_collect_result ha hcl hch c8_process_eq hie hmem
  refine ⟨rfl, c8_process_eq, ?_, ?_, ?_,
    result_metadata_base_lookup_none _ _ _ _,
    result_metadata_base_no_true _ _ _ _⟩
  · rw [hexec]
  · rw [hexec]
    exact getStatus_complete_job _ _ _ _ _ _ hmem
  · rw [hexec]
    rw [show ((complete_job c8_env.dumpsLen c8_env.now [sample_job] "j1"
        c8_collect_result.all_rows (result_metadata_base c8_params
          c8_collect_result.all_rows.length
          c8_collect_result.channels_with_data 0)).1,
        AttemptOutcome.done).1 =
      (complete_job c8_env.dumpsLen c8_env.now [sample_job] "j1"
        c8_collect_result.all_rows (result_metadata_base c8_params
          c8_collect_result.all_rows.length
          c8_collect_result.channels_with_data 0)).1 from rfl]
    rw [getMetadata_complete_job _ _ _ _ _ _ hmem, hie]
    simp only [Bool.false_eq_true, if_false]
    rw [show c8_env.dumpsLen c8_collect_result.all_rows = 100 from rfl]
    rw [if_neg (by decide : ¬ (1048576 < 100))]
    rw [show c8_collect_result.all_rows.length = MAX_ROWS from
      List.length_replicate _ _]
    rfl

/-- Witness for the amended C8 theorem at the concrete limit-hitting run. -/
theorem C8_row_limit_no_metadata_flag_witness :
    (execute_attempt c8_env c8_params 0 [sample_job] "j1").2 = .done ∧
    getStatus (execute_attempt c8_env c8_params 0 [sample_job] "j1").1 "j1" =
      some .completed :=
  ⟨(C8_row_limit_no_metadata_flag c8_env c8_params 0 [sample_job] "j1"
      [c8_chan] c8_collect_result rfl rfl rfl c8_process_eq rfl (by decide)).1,
   (C8_row_limit_no_metadata_flag c8_env c8_params 0 [sample_job] "j1"
      [c8_chan] c8_collect_result rfl rfl rfl c8_process_eq rfl
      (by decide)).2.1⟩
